import Mathlib

/-!
Verification development for the AURA seed-planning core: shallow embedding of
the Seed Allocator (`app/services/seed.py`), the Constraint Validator
(`app/services/constraints.py`), the Cluster Selector (`app/services/clustering.py`)
and the export stages of the two workflows (`app/orchestration/graph.py`,
`app/api/routes.py`), together with theorems settling the spec claims.

Numeric values (Python `float` / `Decimal`) are embedded as rationals `ℚ`;
Python dicts that the code iterates in insertion order are embedded as
association lists; fallible code paths (Python exceptions such as
`ZeroDivisionError`) are embedded as `Option`.
-/

namespace AuraSeed

/-! ## Data model -/

/-- A catalog row of the SKU CSV as read by the seed generator: only `sku_id`
and `cost` are consumed by `_generate_plan_lines`. -/
structure Sku where
  sku_id : String
  cost : ℚ
deriving DecidableEq, Repr

/-- One entry of the `demand_forecasts` dict: the two keys the seed generator
and the confidence scorer read (`forecast_demand`, `confidence`). -/
structure Forecast where
  forecast_demand : ℚ
  confidence : ℚ
deriving DecidableEq, Repr

/-- One allocation line dict appended by `_generate_plan_lines`. -/
structure PlanLine where
  sku : String
  store : String
  cluster : Int
  quantity : Int
  unit_cost : ℚ
  cost : ℚ
  forecast_demand : ℚ
deriving DecidableEq, Repr

/-- Python `int(x)` on a float: truncation toward zero (floor for non-negative
values, ceiling for negative ones). -/
def pyTrunc (q : ℚ) : Int :=
  if 0 ≤ q then ⌊q⌋ else ⌈q⌉

/-- `priority = demand_forecasts.get(sku_id, {}).get('forecast_demand', 5.0)`. -/
def defaultPriority (demand_forecasts : String → Option Forecast) (sid : String) : ℚ :=
  ((demand_forecasts sid).map Forecast.forecast_demand).getD 5

/-- `quantity = max(1, int(priority / 2))` from `_generate_plan_lines`. -/
def lineQuantity (priority : ℚ) : Int :=
  max 1 (pyTrunc (priority / 2))

/-! ## Seed Allocator (`SeedGeneratorService._generate_plan_lines`) -/

/-- The `(priority, sku)` pairs built before sorting. -/
def skuPriorities (demand_forecasts : String → Option Forecast) (catalog : List Sku) :
    List (ℚ × Sku) :=
  catalog.map (fun sku => (defaultPriority demand_forecasts sku.sku_id, sku))

/-- Insert into a descending-by-priority list, after strictly greater keys and
before equal or smaller keys (so earlier elements precede later ones on ties). -/
def insertDesc (x : ℚ × Sku) : List (ℚ × Sku) → List (ℚ × Sku)
  | [] => [x]
  | y :: ys => if y.1 ≤ x.1 then x :: y :: ys else y :: insertDesc x ys

/-- `sku_priorities.sort(key=lambda x: x[0], reverse=True)`: Python `list.sort`
is a stable sort, and a stable sort by a fixed key is extensionally unique, so
it is embedded as a stable descending insertion sort. -/
def sortDesc : List (ℚ × Sku) → List (ℚ × Sku)
  | [] => []
  | x :: xs => insertDesc x (sortDesc xs)

/-- Mutable state of the greedy loop of `_generate_plan_lines`: the emitted
lines, the running budget, and the `store_sku_counts` dict in insertion order. -/
structure GenState where
  lines : List PlanLine
  budget : ℚ
  counts : List (String × Nat)
deriving DecidableEq, Repr

/-- `store_sku_counts[store] += 1`: bump the entry of `store` (dict keys are
unique, so bumping the first occurrence models the dict update). -/
def bumpCount : List (String × Nat) → String → List (String × Nat)
  | [], _ => []
  | (k, v) :: rest, s => if k = s then (k, v + 1) :: rest else (k, v) :: bumpCount rest s

/-- The line dict appended for one `(sku, store)` allocation. -/
def mkLine (cm : List (String × Int)) (sku : Sku) (priority : ℚ) (store : String) : PlanLine :=
  { sku := sku.sku_id
    store := store
    cluster := (cm.lookup store).getD 0
    quantity := lineQuantity priority
    unit_cost := sku.cost
    cost := sku.cost * (lineQuantity priority : ℚ)
    forecast_demand := priority }

/-- Body of the inner `for store in eligible_stores[:3]` loop. -/
def allocStore (cm : List (String × Int)) (sku : Sku) (priority : ℚ)
    (st : GenState) (store : String) : GenState :=
  if sku.cost ≤ st.budget then
    if sku.cost * (lineQuantity priority : ℚ) ≤ st.budget then
      { lines := st.lines ++ [mkLine cm sku priority store]
        budget := st.budget - sku.cost * (lineQuantity priority : ℚ)
        counts := bumpCount st.counts store }
    else st
  else st

/-- `eligible_stores`: the stores whose SKU count is still below the cap, in
dict insertion order. -/
def eligibleStores (maxSkus : Int) (counts : List (String × Nat)) : List String :=
  (counts.filter (fun p => (p.2 : Int) < maxSkus)).map Prod.fst

/-- Body of the outer `for priority, sku in sku_priorities` loop. -/
def allocateSku (cm : List (String × Int)) (maxSkus : Int)
    (st : GenState) (ps : ℚ × Sku) : GenState :=
  if st.budget < ps.2.cost then st
  else if eligibleStores maxSkus st.counts = [] then st
  else ((eligibleStores maxSkus st.counts).take 3).foldl (allocStore cm ps.2 ps.1) st

/-- The full greedy loop of `_generate_plan_lines`, returning its final state. -/
def generatePlanState (catalog : List Sku) (cm : List (String × Int))
    (demand_forecasts : String → Option Forecast) (budget : ℚ) (maxSkus : Int) : GenState :=
  (sortDesc (skuPriorities demand_forecasts catalog)).foldl (allocateSku cm maxSkus)
    { lines := [], budget := budget, counts := cm.map (fun p => (p.1, 0)) }

/-- `SeedGeneratorService._generate_plan_lines`. -/
def generate_plan_lines (catalog : List Sku) (cm : List (String × Int))
    (demand_forecasts : String → Option Forecast) (budget : ℚ) (maxSkus : Int) :
    List PlanLine :=
  (generatePlanState catalog cm demand_forecasts budget maxSkus).lines

/-! ## Coverage statistics and the full seed service call -/

/-- Deduplicate keeping the first occurrence of each element, the key order of
a Python dict/set built by insertion (used to embed iteration over dicts whose
keys are collected while scanning the lines). -/
def firstDedup {α : Type} [DecidableEq α] : List α → List α
  | [] => []
  | a :: l => a :: firstDedup (l.filter (fun b => b ≠ a))
termination_by l => l.length
decreasing_by
  simp only [List.length_cons]
  exact Nat.lt_succ_of_le (List.length_filter_le _ _)

/-- The dict returned by `_calculate_coverage_stats`. -/
structure CoverageStats where
  store_coverage : ℚ
  total_skus_planned : Nat
  total_lines : Nat
  budget_utilization : ℚ
  avg_skus_per_store : ℚ
deriving DecidableEq, Repr

/-- `SeedGeneratorService._calculate_coverage_stats`. The two unguarded Python
divisions are embedded as failure (`none`): `budget_utilization` divides by
`float(constraints.budget)` and `store_coverage` divides by `len(cluster_map)`,
each raising `ZeroDivisionError` when its denominator is zero
(`budget_utilization` is computed first in the source). -/
def calculate_coverage_stats (plan_lines : List PlanLine) (cm : List (String × Int))
    (budget : ℚ) : Option CoverageStats :=
  let total_stores := cm.length
  let stores_with_skus := ((plan_lines.map PlanLine.store).dedup).length
  let total_skus := ((plan_lines.map PlanLine.sku).dedup).length
  if budget = 0 then none
  else
    let budget_utilization := ((plan_lines.map PlanLine.cost).sum) / budget
    if total_stores = 0 then none
    else some
      { store_coverage := (stores_with_skus : ℚ) / (total_stores : ℚ)
        total_skus_planned := total_skus
        total_lines := plan_lines.length
        budget_utilization := budget_utilization
        avg_skus_per_store := (total_skus : ℚ) / (max stores_with_skus 1 : ℚ) }

/-- `SeedGeneratorService._calculate_confidence_scores`: the per-line confidence
dict, keyed by `sku_store` in line order. -/
def calculate_confidence_scores (plan_lines : List PlanLine)
    (demand_forecasts : String → Option Forecast) : List (String × ℚ) :=
  plan_lines.map (fun line =>
    let base := ((demand_forecasts line.sku).map Forecast.confidence).getD (1 / 2)
    let ratio := (line.quantity : ℚ) / max line.forecast_demand 1
    let conf := if 3 / 2 < ratio then base * (7 / 10)
      else if 1 < ratio then base * (9 / 10)
      else base
    (line.sku ++ "_" ++ line.store, min conf 1))

/-- The fields of `SeedPlanResult` determined by the inputs; the wall-clock
timestamp `plan_id` is outside the embedding. -/
structure SeedPlanResult where
  lines : List PlanLine
  total_cost : ℚ
  coverage_stats : CoverageStats
  confidence_scores : List (String × ℚ)
deriving DecidableEq, Repr

/-- `SeedGeneratorService.generate_plan`, with the forecast dict passed in as
the opaque lookup the spec describes (`_generate_forecasts` draws random mock
data and is an external collaborator). `none` embeds an uncaught Python
exception from `_calculate_coverage_stats`. -/
def generate_plan (catalog : List Sku) (cm : List (String × Int))
    (demand_forecasts : String → Option Forecast) (budget : ℚ) (maxSkus : Int) :
    Option SeedPlanResult :=
  let plan_lines := generate_plan_lines catalog cm demand_forecasts budget maxSkus
  let total_cost := (plan_lines.map PlanLine.cost).sum
  match calculate_coverage_stats plan_lines cm budget with
  | none => none
  | some stats => some
      { lines := plan_lines
        total_cost := total_cost
        coverage_stats := stats
        confidence_scores := calculate_confidence_scores plan_lines demand_forecasts }

/-! ## Constraint Validator (`ConstraintsService`) -/

/-- The keys of a line dict that `ConstraintsService` reads. -/
structure VLine where
  store : String
  sku : String
  quantity : Int
  cost : ℚ
deriving DecidableEq, Repr

/-- A `Violation` model object. -/
structure Violation where
  type : String
  message : String
  severity : String
  suggestion : String
deriving DecidableEq, Repr

/-- The `rules` dict. A `none` models an absent key (Python `rules.get`
defaults: `float('inf')` for budget and max, `0` for min). For
`fixture_constraints`, the outer `none` models an absent or empty dict
(falsy, so the fixture check is skipped) and the inner option models the
`max_space_per_store` key of a non-empty fixture dict. -/
structure Rules where
  budget : Option ℚ
  max_skus_per_store : Option Int
  min_skus_per_store : Option Int
  fixture_constraints : Option (Option ℚ)
deriving DecidableEq, Repr

/-- Total cost summed by the validator (`sum(Decimal(str(line['cost'])) ...)`). -/
def sumVCost (lines : List VLine) : ℚ :=
  (lines.map VLine.cost).sum

/-- `ConstraintsService._validate_budget`. An absent budget key defaults to
`float('inf')`, which no total exceeds. -/
def validate_budget (lines : List VLine) (rules : Rules) : List Violation :=
  match rules.budget with
  | none => []
  | some max_budget =>
    if max_budget < sumVCost lines then
      [{ type := "budget_exceeded"
         message := "Total cost $" ++ toString (sumVCost lines) ++ " exceeds budget $" ++
           toString max_budget
         severity := "critical"
         suggestion := "Reduce allocation by $" ++ toString (sumVCost lines - max_budget) }]
    else []

/-- The stores of a line list in order of first occurrence (insertion order of
the `store_sku_counts` / `store_space_usage` dicts). -/
def storesInOrder (lines : List VLine) : List String :=
  firstDedup (lines.map VLine.store)

/-- Number of distinct SKUs a store holds in a line list (the per-store set
built by `_validate_sku_limits`). -/
def distinctSkusFor (lines : List VLine) (store : String) : Nat :=
  (((lines.filter (fun l => l.store = store)).map VLine.sku).dedup).length

/-- `ConstraintsService._validate_sku_limits`. -/
def validate_sku_limits (lines : List VLine) (rules : Rules) : List Violation :=
  let min_skus := (rules.min_skus_per_store).getD 0
  (storesInOrder lines).foldr
    (fun store acc =>
      let sku_count : Int := (distinctSkusFor lines store : Int)
      let over : List Violation :=
        match rules.max_skus_per_store with
        | none => []
        | some max_skus =>
          if max_skus < sku_count then
            [{ type := "sku_limit_exceeded"
               message := "Store " ++ store ++ " has " ++ toString sku_count ++
                 " SKUs, exceeds limit of " ++ toString max_skus
               severity := "critical"
               suggestion := "Remove " ++ toString (sku_count - max_skus) ++
                 " SKUs from store " ++ store }]
          else []
      let under : List Violation :=
        if sku_count < min_skus then
          [{ type := "sku_minimum_not_met"
             message := "Store " ++ store ++ " has " ++ toString sku_count ++
               " SKUs, below minimum of " ++ toString min_skus
             severity := "warning"
             suggestion := "Add " ++ toString (min_skus - sku_count) ++
               " SKUs to store " ++ store }]
        else []
      over ++ under ++ acc)
    []

/-- Space a store consumes (`quantity * 0.1` summed over its lines). -/
def spaceUsedFor (lines : List VLine) (store : String) : ℚ :=
  ((lines.filter (fun l => l.store = store)).map
    (fun l => (l.quantity : ℚ) * (1 / 10))).sum

/-- `ConstraintsService._validate_fixture_capacity`: skipped when the fixture
dict is absent or empty; an absent `max_space_per_store` key defaults to
`float('inf')`. -/
def validate_fixture_capacity (lines : List VLine) (rules : Rules) : List Violation :=
  match rules.fixture_constraints with
  | none => []
  | some max_space? =>
    match max_space? with
    | none => []
    | some max_space =>
      (storesInOrder lines).foldr
        (fun store acc =>
          (if max_space < spaceUsedFor lines store then
            [{ type := "fixture_capacity_exceeded"
               message := "Store " ++ store ++ " uses " ++ toString (spaceUsedFor lines store) ++
                 " sq ft, exceeds " ++ toString max_space ++ " sq ft"
               severity := "warning"
               suggestion := "Reduce quantities to free up " ++
                 toString (spaceUsedFor lines store - max_space) ++ " sq ft" }]
          else []) ++ acc)
        []

/-- `ConstraintsService._generate_suggestions`. Python returns
`list(set(suggestions))`, whose iteration order is interpreter-defined; the
deduplication is embedded keeping first occurrences. -/
def generate_suggestions (violations : List Violation) : List String :=
  let base := (violations.filter (fun v => v.suggestion ≠ "")).map Violation.suggestion
  let base := base ++
    (if violations.any (fun v => v.type = "budget_exceeded") then
      ["Consider prioritizing higher-forecasted SKUs",
       "Review and reduce quantities for low-confidence recommendations"]
    else [])
  let base := base ++
    (if violations.any (fun v => v.type.startsWith "sku_") then
      ["Rebalance SKU distribution across stores",
       "Consider merging similar clusters to simplify assortment"]
    else [])
  firstDedup base

/-- The `ValidationResult` model object; the `summary` dict is embedded as its
three counters. -/
structure ValidationResult where
  is_valid : Bool
  violations : List Violation
  suggestions : List String
  total_violations : Nat
  critical_violations : Nat
  warning_violations : Nat
deriving DecidableEq, Repr

/-- `ConstraintsService.validate_plan`. -/
def validate_plan (lines : List VLine) (rules : Rules) : ValidationResult :=
  let violations := validate_budget lines rules ++ validate_sku_limits lines rules ++
    validate_fixture_capacity lines rules
  let suggestions := if violations = [] then [] else generate_suggestions violations
  let critical := violations.filter (fun v => v.severity = "critical")
  { is_valid := critical.length == 0
    violations := violations
    suggestions := suggestions
    total_violations := violations.length
    critical_violations := critical.length
    warning_violations := violations.length - critical.length }

/-- Modelled from the spec: the simple-variant endpoint that wraps the
violation list into `ValidateResponse` and computes its `ok` flag is not under
`src/` (only the `ValidateResponse` schema in `app/models/schemas.py` and the
`node_validate` caller exist there); the spec defines `ok` as "zero violations
of any kind". -/
def okSignal (violations : List Violation) : Bool :=
  violations.isEmpty

/-! ## Cluster Selector (`ClusteringService.cluster_stores`) -/

/-- One entry of the mock per-cluster statistics dict. -/
structure ClusterStat where
  store_count : Nat
  avg_capacity : ℚ
  avg_footfall : ℚ
  feature_means : List (String × ℚ)
deriving DecidableEq, Repr

/-- The `ClusterResult` model object. -/
structure ClusterResult where
  cluster_map : List (String × Int)
  silhouette_score : ℚ
  cluster_stats : List (String × ClusterStat)
  confidence : ℚ
deriving DecidableEq, Repr

/-- `ClusteringService.cluster_stores`: ignores every input and returns the
hard-coded mock assignment and statistics. -/
def cluster_stores (stores_csv : String) (features : List String)
    (algorithm : String) (n_clusters : Option Int) : ClusterResult :=
  { cluster_map := [("S1", 0), ("S2", 1), ("S3", 0), ("S4", 1),
      ("S5", 2), ("S6", 1), ("S7", 2), ("S8", 0)]
    silhouette_score := 85 / 100
    cluster_stats :=
      [("0", { store_count := 3, avg_capacity := 150, avg_footfall := 500,
               feature_means := [("capacity", 150), ("footfall", 500)] }),
       ("1", { store_count := 3, avg_capacity := 200, avg_footfall := 800,
               feature_means := [("capacity", 200), ("footfall", 800)] }),
       ("2", { store_count := 2, avg_capacity := 100, avg_footfall := 300,
               feature_means := [("capacity", 100), ("footfall", 300)] })]
    confidence := 85 / 100 }

/-! ## Export stages of the two workflows -/

/-- `node_export` of `app/orchestration/graph.py`: if any violation is present
the export collaborator is not called and a null path is recorded, otherwise
the collaborator is called on the lines and its path recorded. The collaborator
(`export_plan_to_csv`) is an external effectful function, passed in abstractly. -/
def node_export {V L : Type} (exporter : String → List L → String)
    (violations : List V) (lines : List L) : Option String :=
  match violations with
  | _ :: _ => none
  | [] => some (exporter "seed_auto" lines)

/-- The export path string `execute_full_workflow` always builds
(`f"exports/seed_plan_{task_id}.csv"`). -/
def workflow_export_path (task_id : String) : String :=
  "exports/seed_plan_" ++ task_id ++ ".csv"

/-- The slice of the `final_result` dict of `execute_full_workflow`
(`app/api/routes.py`, steps 3 and 4) determined by the validation result. -/
structure WorkflowResult where
  validation_status : String
  violations_count : Nat
  export_path : Option String
deriving DecidableEq, Repr

/-- Steps 3 and 4 of `execute_full_workflow`: the status branches on
`is_valid`, but the export path is recorded unconditionally and no export
collaborator is invoked (the export step is a placeholder). -/
def execute_full_workflow_outcome (task_id : String)
    (validation_result : ValidationResult) : WorkflowResult :=
  { validation_status :=
      if validation_result.is_valid then "auto_approved" else "requires_manual_review"
    violations_count := validation_result.violations.length
    export_path := some (workflow_export_path task_id) }

/-! ## Helper lemmas -/

/-- Invariant preservation along a left fold, with membership of the folded
element available to the step. -/
theorem foldl_induction {α β : Type} (f : β → α → β) (P : β → Prop) :
    ∀ (l : List α) (init : β), P init → (∀ st a, a ∈ l → P st → P (f st a)) →
      P (l.foldl f init)
  | [], _, h0, _ => h0
  | a :: l, init, h0, hstep =>
    foldl_induction f P l (f init a) (hstep init a (by simp) h0)
      (fun st b hb => hstep st b (by simp [hb]))

theorem insertDesc_perm (x : ℚ × Sku) :
    ∀ l : List (ℚ × Sku), List.Perm (insertDesc x l) (x :: l)
  | [] => List.Perm.refl _
  | y :: ys => by
    unfold insertDesc
    split
    · exact List.Perm.refl _
    · exact ((insertDesc_perm x ys).cons y).trans (List.Perm.swap x y ys)

theorem sortDesc_perm : ∀ l : List (ℚ × Sku), List.Perm (sortDesc l) l
  | [] => List.Perm.refl _
  | x :: xs => (insertDesc_perm x (sortDesc xs)).trans ((sortDesc_perm xs).cons x)

/-- `allocStore` either leaves the state unchanged or, when the full line cost
fits the remaining budget, appends exactly the new line, pays for it, and bumps
the store's counter. -/
theorem allocStore_cases (cm : List (String × Int)) (sku : Sku) (priority : ℚ)
    (st : GenState) (store : String) :
    allocStore cm sku priority st store = st ∨
    (sku.cost * (lineQuantity priority : ℚ) ≤ st.budget ∧
      allocStore cm sku priority st store =
        { lines := st.lines ++ [mkLine cm sku priority store]
          budget := st.budget - sku.cost * (lineQuantity priority : ℚ)
          counts := bumpCount st.counts store }) := by
  unfold allocStore
  split
  · split
    · next h => exact Or.inr ⟨h, rfl⟩
    · exact Or.inl rfl
  · exact Or.inl rfl

/-- `allocateSku` either leaves the state unchanged or folds `allocStore` over
the first three eligible stores. -/
theorem allocateSku_cases (cm : List (String × Int)) (maxSkus : Int)
    (st : GenState) (ps : ℚ × Sku) :
    allocateSku cm maxSkus st ps = st ∨
    allocateSku cm maxSkus st ps =
      (((eligibleStores maxSkus st.counts).take 3).foldl (allocStore cm ps.2 ps.1) st) := by
  unfold allocateSku
  split
  · exact Or.inl rfl
  · split
    · exact Or.inl rfl
    · exact Or.inr rfl

/-! ## Budget and line-shape invariant of the greedy loop -/

/-- Budget bookkeeping invariant: the emitted cost plus the remaining budget is
the initial budget, the remaining budget never goes negative, and every prefix
of the emitted lines already cost at most the initial budget. -/
def budgetInv (b : ℚ) (st : GenState) : Prop :=
  ((st.lines.map PlanLine.cost).sum + st.budget = b) ∧ 0 ≤ st.budget ∧
    ∀ n, (((st.lines.take n).map PlanLine.cost).sum ≤ b)

/-- Every emitted line carries the priority of its SKU as `forecast_demand`,
its quantity is `max(1, int(priority / 2))`, and its cost is unit cost times
quantity. -/
def shapeInv (f : String → Option Forecast) (st : GenState) : Prop :=
  ∀ l ∈ st.lines, l.forecast_demand = defaultPriority f l.sku ∧
    l.quantity = lineQuantity l.forecast_demand ∧
    l.cost = l.unit_cost * (l.quantity : ℚ)

theorem allocStore_preserves (cm : List (String × Int)) (sku : Sku) (p : ℚ)
    (f : String → Option Forecast) (b : ℚ) (hp : p = defaultPriority f sku.sku_id)
    (st : GenState) (store : String) (h : budgetInv b st ∧ shapeInv f st) :
    budgetInv b (allocStore cm sku p st store) ∧ shapeInv f (allocStore cm sku p st store) := by
  rcases allocStore_cases cm sku p st store with heq | ⟨hfit, heq⟩
  · rw [heq]; exact h
  · obtain ⟨⟨hsum, hpos, hpre⟩, hshape⟩ := h
    rw [heq]
    refine ⟨⟨?_, ?_, ?_⟩, ?_⟩
    · simp only [List.map_append, List.sum_append, List.map_cons, List.map_nil,
        List.sum_cons, List.sum_nil]
      have hc : (mkLine cm sku p store).cost = sku.cost * (lineQuantity p : ℚ) := rfl
      rw [hc]
      ring_nf
      ring_nf at hsum
      linarith
    · simp only []
      linarith
    · intro n
      by_cases hn : n ≤ st.lines.length
      · have : (st.lines ++ [mkLine cm sku p store]).take n = st.lines.take n := by
          rw [List.take_append_eq_append_take]
          simp [Nat.sub_eq_zero_of_le hn]
        simp only [this]
        exact hpre n
      · push_neg at hn
        have : (st.lines ++ [mkLine cm sku p store]).take n =
            st.lines ++ [mkLine cm sku p store] := by
          apply List.take_of_length_le
          simp
          omega
        rw [this]
        simp only [List.map_append, List.sum_append, List.map_cons, List.map_nil,
          List.sum_cons, List.sum_nil]
        have hc : (mkLine cm sku p store).cost = sku.cost * (lineQuantity p : ℚ) := rfl
        rw [hc]
        linarith
    · intro l hl
      rcases List.mem_append.1 hl with hmem | hmem
      · exact hshape l hmem
      · have : l = mkLine cm sku p store := List.mem_singleton.1 hmem
        subst this
        refine ⟨?_, rfl, rfl⟩
        show p = defaultPriority f sku.sku_id
        exact hp

theorem allocateSku_preserves (cm : List (String × Int)) (maxSkus : Int)
    (f : String → Option Forecast) (b : ℚ) (st : GenState) (ps : ℚ × Sku)
    (hp : ps.1 = defaultPriority f ps.2.sku_id) (h : budgetInv b st ∧ shapeInv f st) :
    budgetInv b (allocateSku cm maxSkus st ps) ∧ shapeInv f (allocateSku cm maxSkus st ps) := by
  rcases allocateSku_cases cm maxSkus st ps with heq | heq
  · rw [heq]; exact h
  · rw [heq]
    exact foldl_induction _ (fun st => budgetInv b st ∧ shapeInv f st) _ st h
      (fun st' store _ h' => allocStore_preserves cm ps.2 ps.1 f b hp st' store h')

/-- Every pair fed to the outer loop pairs a catalog SKU with its (defaulted)
forecast priority. -/
theorem mem_sortDesc_priorities (f : String → Option Forecast) (catalog : List Sku)
    {ps : ℚ × Sku} (h : ps ∈ sortDesc (skuPriorities f catalog)) :
    ps.1 = defaultPriority f ps.2.sku_id := by
  have hmem : ps ∈ skuPriorities f catalog := (sortDesc_perm _).mem_iff.1 h
  unfold skuPriorities at hmem
  obtain ⟨sku, -, hEq⟩ := List.mem_map.1 hmem
  rw [← hEq]

/-- Master invariant of `_generate_plan_lines` for a non-negative budget. -/
theorem generatePlanState_master (catalog : List Sku) (cm : List (String × Int))
    (f : String → Option Forecast) (b : ℚ) (maxSkus : Int) (hb : 0 ≤ b) :
    budgetInv b (generatePlanState catalog cm f b maxSkus) ∧
      shapeInv f (generatePlanState catalog cm f b maxSkus) := by
  unfold generatePlanState
  refine foldl_induction _ (fun st => budgetInv b st ∧ shapeInv f st) _ _ ⟨⟨by simp, hb, ?_⟩, ?_⟩ ?_
  · intro n; simpa using hb
  · intro l hl; simp at hl
  · intro st ps hmem h
    exact allocateSku_preserves cm maxSkus f b st ps (mem_sortDesc_priorities f catalog hmem) h

/-! ## Per-store counter invariant of the greedy loop -/

/-- The counter a store currently holds in the `store_sku_counts` dict. -/
def cnt (c : List (String × Nat)) (s : String) : Nat :=
  (c.lookup s).getD 0

/-- Number of emitted lines belonging to a store. -/
def linesFor (lines : List PlanLine) (s : String) : Nat :=
  (lines.filter (fun l => l.store = s)).length

/-- Number of distinct SKUs a store holds among the emitted lines. -/
def distinctStoreSkus (lines : List PlanLine) (s : String) : Nat :=
  (((lines.filter (fun l => l.store = s)).map PlanLine.sku).dedup).length

theorem bumpCount_keys (s : String) :
    ∀ c : List (String × Nat), (bumpCount c s).map Prod.fst = c.map Prod.fst
  | [] => rfl
  | (k, v) :: rest => by
    unfold bumpCount
    split
    · simp
    · simp [bumpCount_keys s rest]

theorem lookup_bumpCount_self (s : String) :
    ∀ c : List (String × Nat), (bumpCount c s).lookup s = (c.lookup s).map (· + 1)
  | [] => rfl
  | (k, v) :: rest => by
    by_cases hk : k = s
    · subst hk
      simp [bumpCount, List.lookup]
    · have hbc : bumpCount ((k, v) :: rest) s = (k, v) :: bumpCount rest s := by
        simp [bumpCount, hk]
      have hsk : (s == k) = false := beq_eq_false_iff_ne.2 (Ne.symm hk)
      rw [hbc]
      simp [List.lookup, hsk, lookup_bumpCount_self s rest]

theorem lookup_bumpCount_ne {s t : String} (h : s ≠ t) :
    ∀ c : List (String × Nat), (bumpCount c t).lookup s = c.lookup s
  | [] => rfl
  | (k, v) :: rest => by
    by_cases hk : k = t
    · subst hk
      have hsk : (s == k) = false := beq_eq_false_iff_ne.2 h
      simp [bumpCount, List.lookup, hsk]
    · have hbc : bumpCount ((k, v) :: rest) t = (k, v) :: bumpCount rest t := by
        simp [bumpCount, hk]
      rw [hbc]
      cases hsk : (s == k) with
      | true => simp [List.lookup, hsk]
      | false => simp [List.lookup, hsk, lookup_bumpCount_ne h rest]

/-- With unique dict keys, membership determines the lookup result. -/
theorem lookup_eq_of_mem :
    ∀ {c : List (String × Nat)} {s : String} {v : Nat},
      (c.map Prod.fst).Nodup → (s, v) ∈ c → c.lookup s = some v
  | [], _, _, _, hm => by simp at hm
  | (k, w) :: rest, s, v, hnd, hm => by
    simp only [List.map_cons, List.nodup_cons] at hnd
    rcases List.mem_cons.1 hm with hEq | hmem
    · cases hEq
      simp [List.lookup]
    · have hk : k ≠ s := by
        intro hks
        exact hnd.1 (hks ▸ (List.mem_map.2 ⟨(s, v), hmem, rfl⟩))
      have hsk : (s == k) = false := beq_eq_false_iff_ne.2 (Ne.symm hk)
      simp [List.lookup, hsk, lookup_eq_of_mem hnd.2 hmem]

/-- The counting invariant: dict keys stay unique, each store has at least as
many counter ticks as emitted lines, and no counter exceeds the cap. -/
def countInv (maxSkus : Int) (st : GenState) : Prop :=
  (st.counts.map Prod.fst).Nodup ∧
    (∀ s, (linesFor st.lines s : Int) ≤ (cnt st.counts s : Int)) ∧
    (∀ s, (cnt st.counts s : Int) ≤ maxSkus)

theorem linesFor_append_mkLine (lines : List PlanLine) (cm : List (String × Int))
    (sku : Sku) (p : ℚ) (t s : String) :
    linesFor (lines ++ [mkLine cm sku p t]) s =
      linesFor lines s + (if t = s then 1 else 0) := by
  unfold linesFor
  rw [List.filter_append, List.length_append]
  congr 1
  have hst : (mkLine cm sku p t).store = t := rfl
  by_cases h : t = s
  · subst h
    simp [List.filter_cons, hst]
  · simp [List.filter_cons, hst, h]

/-- Folding `allocStore` over distinct stores whose counters are all below the
cap preserves the counting invariant. -/
theorem allocFold_countInv (cm : List (String × Int)) (sku : Sku) (p : ℚ) (maxSkus : Int) :
    ∀ (todo : List String) (st : GenState),
      (st.counts.map Prod.fst).Nodup →
      todo.Nodup →
      (∀ s ∈ todo, ∃ v, st.counts.lookup s = some v ∧ (v : Int) < maxSkus) →
      (∀ s, (linesFor st.lines s : Int) ≤ (cnt st.counts s : Int)) →
      (∀ s, (cnt st.counts s : Int) ≤ maxSkus) →
      countInv maxSkus (todo.foldl (allocStore cm sku p) st)
  | [], st, hnd, _, _, hle, hcap => ⟨hnd, hle, hcap⟩
  | t :: rest, st, hnd, hndt, helig, hle, hcap => by
    simp only [List.foldl_cons]
    rcases allocStore_cases cm sku p st t with heq | ⟨-, heq⟩
    · rw [heq]
      exact allocFold_countInv cm sku p maxSkus rest st hnd (List.Nodup.of_cons hndt)
        (fun s hs => helig s (List.mem_cons_of_mem t hs)) hle hcap
    · rw [heq]
      obtain ⟨v, hv, hvlt⟩ := helig t (List.mem_cons_self t rest)
      have hcnt_t : cnt st.counts t = v := by simp [cnt, hv]
      have hkeys : ((bumpCount st.counts t).map Prod.fst) = st.counts.map Prod.fst :=
        bumpCount_keys t st.counts
      have htnotrest : t ∉ rest := (List.nodup_cons.1 hndt).1
      refine allocFold_countInv cm sku p maxSkus rest _ (hkeys ▸ hnd)
        (List.Nodup.of_cons hndt) ?_ ?_ ?_
      · intro s hs
        have hst : s ≠ t := fun hEq => htnotrest (hEq ▸ hs)
        obtain ⟨w, hw, hwlt⟩ := helig s (List.mem_cons_of_mem t hs)
        exact ⟨w, by simp [lookup_bumpCount_ne hst, hw], hwlt⟩
      · intro s
        rw [linesFor_append_mkLine]
        by_cases hts : t = s
        · subst hts
          have : cnt (bumpCount st.counts t) t = v + 1 := by
            simp [cnt, lookup_bumpCount_self, hv]
          simp only [if_pos rfl, this]
          have := hle t
          rw [hcnt_t] at this
          push_cast
          linarith
        · have : cnt (bumpCount st.counts t) s = cnt st.counts s := by
            simp [cnt, lookup_bumpCount_ne (Ne.symm hts)]
          simp only [if_neg hts, this]
          simpa using hle s
      · intro s
        by_cases hts : t = s
        · subst hts
          have : cnt (bumpCount st.counts t) t = v + 1 := by
            simp [cnt, lookup_bumpCount_self, hv]
          rw [this]
          push_cast
          linarith
        · have : cnt (bumpCount st.counts t) s = cnt st.counts s := by
            simp [cnt, lookup_bumpCount_ne (Ne.symm hts)]
          rw [this]
          exact hcap s

theorem allocateSku_countInv (cm : List (String × Int)) (maxSkus : Int)
    (st : GenState) (ps : ℚ × Sku) (h : countInv maxSkus st) :
    countInv maxSkus (allocateSku cm maxSkus st ps) := by
  obtain ⟨hnd, hle, hcap⟩ := h
  rcases allocateSku_cases cm maxSkus st ps with heq | heq
  · rw [heq]; exact ⟨hnd, hle, hcap⟩
  · rw [heq]
    have hsub : List.Sublist ((eligibleStores maxSkus st.counts).take 3)
        (st.counts.map Prod.fst) :=
      (List.take_sublist 3 _).trans (List.Sublist.map Prod.fst (List.filter_sublist _))
    refine allocFold_countInv cm ps.2 ps.1 maxSkus _ st hnd (hnd.sublist hsub) ?_ hle hcap
    intro s hs
    have hmem : s ∈ eligibleStores maxSkus st.counts := List.take_subset 3 _ hs
    unfold eligibleStores at hmem
    obtain ⟨⟨s', v⟩, hpair, hfst⟩ := List.mem_map.1 hmem
    obtain ⟨hmemc, hpred⟩ := List.mem_filter.1 hpair
    subst hfst
    refine ⟨v, lookup_eq_of_mem hnd hmemc, ?_⟩
    simpa using hpred

/-- The per-store counter in the initial state is zero everywhere. -/
theorem cnt_init (s : String) :
    ∀ cm : List (String × Int), cnt (cm.map (fun p => (p.1, 0))) s = 0
  | [] => rfl
  | (k, c) :: rest => by
    by_cases hk : k = s
    · simp [cnt, List.lookup, hk]
    · have hsk : (s == k) = false := beq_eq_false_iff_ne.2 (Ne.symm hk)
      have := cnt_init s rest
      simp only [cnt] at this ⊢
      simp [List.lookup, hsk, this]

/-- Master counting invariant of `_generate_plan_lines`: with unique cluster-map
keys and a non-negative cap, the final state satisfies the counting invariant. -/
theorem generatePlanState_countInv (catalog : List Sku) (cm : List (String × Int))
    (f : String → Option Forecast) (b : ℚ) (maxSkus : Int)
    (hnd : (cm.map Prod.fst).Nodup) (hmax : 0 ≤ maxSkus) :
    countInv maxSkus (generatePlanState catalog cm f b maxSkus) := by
  unfold generatePlanState
  refine foldl_induction _ (countInv maxSkus) _ _ ⟨?_, ?_, ?_⟩ ?_
  · have : (cm.map (fun p => (p.1, 0))).map Prod.fst = cm.map Prod.fst := by
      simp [List.map_map, Function.comp]
    rw [this]; exact hnd
  · intro s
    simp [linesFor, cnt_init]
  · intro s
    rw [cnt_init]
    simpa using hmax
  · intro st ps _ h
    exact allocateSku_countInv cm maxSkus st ps h

/-! ## Per-SKU line-count bound (at most three stores per SKU) -/

/-- Number of emitted lines carrying a given SKU id. -/
def countSkuLines (lines : List PlanLine) (s : String) : Nat :=
  (lines.filter (fun l => l.sku = s)).length

theorem allocStore_lines_extra (cm : List (String × Int)) (sku : Sku) (p : ℚ)
    (st : GenState) (store : String) :
    ∃ extra, (allocStore cm sku p st store).lines = st.lines ++ extra ∧
      extra.length ≤ 1 ∧ ∀ l ∈ extra, l.sku = sku.sku_id := by
  rcases allocStore_cases cm sku p st store with heq | ⟨-, heq⟩
  · exact ⟨[], by simp [heq], by simp, by simp⟩
  · refine ⟨[mkLine cm sku p store], by simp [heq], by simp, ?_⟩
    intro l hl
    rw [List.mem_singleton.1 hl]
    rfl

theorem allocFold_lines_extra (cm : List (String × Int)) (sku : Sku) (p : ℚ) :
    ∀ (todo : List String) (st : GenState),
      ∃ extra, (todo.foldl (allocStore cm sku p) st).lines = st.lines ++ extra ∧
        extra.length ≤ todo.length ∧ ∀ l ∈ extra, l.sku = sku.sku_id
  | [], st => ⟨[], by simp, by simp, by simp⟩
  | t :: rest, st => by
    obtain ⟨e1, he1, hl1, hs1⟩ := allocStore_lines_extra cm sku p st t
    obtain ⟨e2, he2, hl2, hs2⟩ := allocFold_lines_extra cm sku p rest (allocStore cm sku p st t)
    refine ⟨e1 ++ e2, ?_, ?_, ?_⟩
    · simp only [List.foldl_cons, he2, he1, List.append_assoc]
    · simp only [List.length_append, List.length_cons]
      omega
    · intro l hl
      rcases List.mem_append.1 hl with h | h
      · exact hs1 l h
      · exact hs2 l h

theorem allocateSku_lines_extra (cm : List (String × Int)) (maxSkus : Int)
    (st : GenState) (ps : ℚ × Sku) :
    ∃ extra, (allocateSku cm maxSkus st ps).lines = st.lines ++ extra ∧
      extra.length ≤ 3 ∧ ∀ l ∈ extra, l.sku = ps.2.sku_id := by
  rcases allocateSku_cases cm maxSkus st ps with heq | heq
  · exact ⟨[], by simp [heq], by simp, by simp⟩
  · obtain ⟨extra, he, hl, hs⟩ :=
      allocFold_lines_extra cm ps.2 ps.1 ((eligibleStores maxSkus st.counts).take 3) st
    refine ⟨extra, by rw [heq]; exact he, ?_, hs⟩
    calc extra.length ≤ ((eligibleStores maxSkus st.counts).take 3).length := hl
      _ ≤ 3 := List.length_take_le 3 _

theorem countSkuLines_append (l1 l2 : List PlanLine) (s : String) :
    countSkuLines (l1 ++ l2) s = countSkuLines l1 s + countSkuLines l2 s := by
  unfold countSkuLines
  rw [List.filter_append, List.length_append]

/-- Folding the outer loop over pairs whose SKU ids are distinct adds at most
three lines per SKU id. -/
theorem fold_countSkuLines (cm : List (String × Int)) (maxSkus : Int) (s : String) :
    ∀ (todo : List (ℚ × Sku)) (st : GenState),
      (todo.map (fun ps => ps.2.sku_id)).Nodup →
      countSkuLines st.lines s ≤ 3 →
      (s ∈ todo.map (fun ps => ps.2.sku_id) → countSkuLines st.lines s = 0) →
      countSkuLines (todo.foldl (allocateSku cm maxSkus) st).lines s ≤ 3
  | [], st, _, h2, _ => h2
  | ps :: rest, st, hnd, h2, h3 => by
    simp only [List.foldl_cons]
    obtain ⟨extra, he, hl, hs⟩ := allocateSku_lines_extra cm maxSkus st ps
    simp only [List.map_cons, List.nodup_cons] at hnd
    by_cases hsku : s = ps.2.sku_id
    · have hzero : countSkuLines st.lines s = 0 := h3 (by simp [hsku])
      have hcount : countSkuLines (allocateSku cm maxSkus st ps).lines s ≤ 3 := by
        rw [he, countSkuLines_append, hzero]
        calc 0 + countSkuLines extra s ≤ countSkuLines extra s := by omega
          _ ≤ extra.length := by
            unfold countSkuLines
            exact List.length_filter_le _ _
          _ ≤ 3 := hl
      exact fold_countSkuLines cm maxSkus s rest _ hnd.2 hcount
        (fun hmem => absurd (hsku ▸ hmem) hnd.1)
    · have hextra : countSkuLines extra s = 0 := by
        unfold countSkuLines
        rw [List.length_eq_zero, List.filter_eq_nil_iff]
        intro l hlmem
        simp only [decide_eq_true_eq]
        rw [hs l hlmem]
        exact Ne.symm hsku
      have hcount : countSkuLines (allocateSku cm maxSkus st ps).lines s =
          countSkuLines st.lines s := by
        rw [he, countSkuLines_append, hextra]
        omega
      exact fold_countSkuLines cm maxSkus s rest _ hnd.2 (hcount ▸ h2)
        (fun hmem => hcount ▸ h3 (List.mem_cons_of_mem _ hmem))

/-- SKU ids listed by the sorted priority pairs are exactly a permutation of
the catalog's SKU ids. -/
theorem sortDesc_skuIds_perm (f : String → Option Forecast) (catalog : List Sku) :
    List.Perm ((sortDesc (skuPriorities f catalog)).map (fun ps => ps.2.sku_id))
      (catalog.map Sku.sku_id) := by
  have h1 : List.Perm ((sortDesc (skuPriorities f catalog)).map (fun ps => ps.2.sku_id))
      ((skuPriorities f catalog).map (fun ps => ps.2.sku_id)) :=
    (sortDesc_perm _).map _
  have h2 : (skuPriorities f catalog).map (fun ps => ps.2.sku_id) = catalog.map Sku.sku_id := by
    unfold skuPriorities
    simp [List.map_map, Function.comp]
  rw [h2] at h1
  exact h1

/-! ## Validator lemmas -/

/-- The rules dict of the direct-validation scenario: only a budget rule. -/
def rulesOnlyBudget (b : ℚ) : Rules :=
  { budget := some b, max_skus_per_store := none, min_skus_per_store := none,
    fixture_constraints := none }

theorem validate_sku_limits_rulesOnlyBudget (lines : List VLine) (b : ℚ) :
    validate_sku_limits lines (rulesOnlyBudget b) = [] := by
  unfold validate_sku_limits rulesOnlyBudget
  induction storesInOrder lines with
  | nil => rfl
  | cons s rest ih =>
    simp only [List.foldr_cons, ih]
    have h0 : ¬ ((distinctSkusFor lines s : Int) < ((none : Option Int).getD 0)) := by
      simp
    simp [h0]

theorem validate_fixture_rulesOnlyBudget (lines : List VLine) (b : ℚ) :
    validate_fixture_capacity lines (rulesOnlyBudget b) = [] := rfl

theorem validate_plan_rulesOnlyBudget (lines : List VLine) (b : ℚ) :
    (validate_plan lines (rulesOnlyBudget b)).violations =
      validate_budget lines (rulesOnlyBudget b) := by
  unfold validate_plan
  simp [validate_sku_limits_rulesOnlyBudget, validate_fixture_rulesOnlyBudget]

/-- The budget check fires exactly when the total strictly exceeds the budget:
the comparison `total_cost > max_budget` carries no tolerance. -/
theorem validate_budget_iff (lines : List VLine) (b : ℚ) (rules : Rules)
    (hb : rules.budget = some b) :
    (validate_budget lines rules ≠ [] ↔ b < sumVCost lines) := by
  unfold validate_budget
  rw [hb]
  by_cases h : b < sumVCost lines
  · simp [h]
  · simp [h]

theorem validate_budget_pos (lines : List VLine) (b : ℚ) (rules : Rules)
    (hb : rules.budget = some b) (h : b < sumVCost lines) :
    ∃ v, validate_budget lines rules = [v] ∧
      v.type = "budget_exceeded" ∧ v.severity = "critical" := by
  unfold validate_budget
  rw [hb]
  dsimp only
  rw [if_pos h]
  exact ⟨_, rfl, rfl, rfl⟩

/-- `is_valid` is exactly "no critical violation is present". -/
theorem is_valid_iff (lines : List VLine) (rules : Rules) :
    (validate_plan lines rules).is_valid = true ↔
      ∀ v ∈ (validate_plan lines rules).violations, v.severity ≠ "critical" := by
  unfold validate_plan
  simp only [beq_iff_eq, List.length_eq_zero, List.filter_eq_nil_iff, decide_eq_true_eq]

/-- A store's distinct SKU count never exceeds its line count. -/
theorem distinct_le_linesFor (lines : List PlanLine) (s : String) :
    distinctStoreSkus lines s ≤ linesFor lines s := by
  unfold distinctStoreSkus linesFor
  calc (((lines.filter (fun l => l.store = s)).map PlanLine.sku).dedup).length
      ≤ ((lines.filter (fun l => l.store = s)).map PlanLine.sku).length :=
        (List.dedup_sublist _).length_le
    _ = (lines.filter (fun l => l.store = s)).length := List.length_map _ _

/-! ## Claims -/

/-- Claim C1: for every SKU catalog, cluster map, (non-negative) budget and
per-store cap, the sum of the `cost` field over all lines emitted by
`SeedGeneratorService._generate_plan_lines` is at most the initial budget. -/
theorem seed_total_cost_le_budget (catalog : List Sku) (cm : List (String × Int))
    (f : String → Option Forecast) (budget : ℚ) (maxSkus : Int) (hb : 0 ≤ budget) :
    ((generate_plan_lines catalog cm f budget maxSkus).map PlanLine.cost).sum ≤ budget := by
  obtain ⟨⟨hsum, hpos, -⟩, -⟩ := generatePlanState_master catalog cm f budget maxSkus hb
  unfold generate_plan_lines
  linarith

/-- Witness for C1 at a concrete catalog, cluster map and budget. -/
theorem seed_total_cost_le_budget_witness :
    0 ≤ (100 : ℚ) ∧
      ((generate_plan_lines [⟨"A", 10⟩, ⟨"B", 30⟩] [("S1", 0), ("S2", 1)]
        (fun _ => none) 100 5).map PlanLine.cost).sum ≤ 100 :=
  ⟨by norm_num, seed_total_cost_le_budget _ _ _ _ _ (by norm_num)⟩

/-- Claim C2: with unique cluster-map keys (a Python dict invariant) and a
non-negative cap, every store holds at most `max_skus_per_store` distinct SKUs
in the line list emitted by `_generate_plan_lines`. -/
theorem seed_store_distinct_sku_cap (catalog : List Sku) (cm : List (String × Int))
    (f : String → Option Forecast) (budget : ℚ) (maxSkus : Int) (s : String)
    (hnd : (cm.map Prod.fst).Nodup) (hmax : 0 ≤ maxSkus) :
    (distinctStoreSkus (generate_plan_lines catalog cm f budget maxSkus) s : Int) ≤ maxSkus := by
  obtain ⟨-, hle, hcap⟩ := generatePlanState_countInv catalog cm f budget maxSkus hnd hmax
  have h1 : distinctStoreSkus (generate_plan_lines catalog cm f budget maxSkus) s ≤
      linesFor (generate_plan_lines catalog cm f budget maxSkus) s :=
    distinct_le_linesFor _ _
  have h2 := hle s
  have h3 := hcap s
  unfold generate_plan_lines at h1
  calc (distinctStoreSkus (generate_plan_lines catalog cm f budget maxSkus) s : Int)
      ≤ (linesFor (generatePlanState catalog cm f budget maxSkus).lines s : Int) := by
        unfold generate_plan_lines
        exact_mod_cast h1
    _ ≤ (cnt (generatePlanState catalog cm f budget maxSkus).counts s : Int) := h2
    _ ≤ maxSkus := h3

/-- Witness for C2 at a concrete input and store. -/
theorem seed_store_distinct_sku_cap_witness :
    (([("S1", 0), ("S2", 1)] : List (String × Int)).map Prod.fst).Nodup ∧ (0 : Int) ≤ 5 ∧
      (distinctStoreSkus (generate_plan_lines [⟨"A", 10⟩] [("S1", 0), ("S2", 1)]
        (fun _ => none) 100 5) "S1" : Int) ≤ 5 :=
  ⟨by simp, by norm_num,
    seed_store_distinct_sku_cap _ _ _ _ _ "S1" (by simp) (by norm_num)⟩

/-- Claim C3 (code evaluation): with a violating validation result,
`execute_full_workflow` still records the non-null placeholder export path
`exports/seed_plan_<task_id>.csv`, while the graph orchestrator's `node_export`
records a null path and never calls the export collaborator. -/
theorem workflow_export_ignores_violations :
    (validate_plan [⟨"S1", "A", 1, 150⟩] (rulesOnlyBudget 100)).violations ≠ [] ∧
    (execute_full_workflow_outcome "t1"
      (validate_plan [⟨"S1", "A", 1, 150⟩] (rulesOnlyBudget 100))).export_path =
        some "exports/seed_plan_t1.csv" ∧
    (∀ exporter : String → List PlanLine → String, ∀ plines : List PlanLine,
      node_export exporter
        (validate_plan [⟨"S1", "A", 1, 150⟩] (rulesOnlyBudget 100)).violations plines = none) := by
  have hlt : (100 : ℚ) < sumVCost [⟨"S1", "A", 1, 150⟩] := by norm_num [sumVCost]
  obtain ⟨v, hv, -, -⟩ := validate_budget_pos [⟨"S1", "A", 1, 150⟩] 100 (rulesOnlyBudget 100)
    rfl hlt
  have hviol : (validate_plan [⟨"S1", "A", 1, 150⟩] (rulesOnlyBudget 100)).violations = [v] := by
    rw [validate_plan_rulesOnlyBudget, hv]
  refine ⟨by rw [hviol]; simp, ?_, ?_⟩
  · simp [execute_full_workflow_outcome, workflow_export_path]
  · intro exporter plines
    rw [hviol]
    rfl

/-- Claim C4 (amended): the validator emits the budget violation exactly when
the total cost strictly exceeds the budget — the comparison carries no epsilon
tolerance — and on a total of budget + 50 it emits exactly one critical
`budget_exceeded` violation with `is_valid` false and the ok signal false. -/
theorem validator_budget_rule (lines : List VLine) (b : ℚ) :
    ((validate_plan lines (rulesOnlyBudget b)).violations ≠ [] ↔ b < sumVCost lines) ∧
    (sumVCost lines = b + 50 →
      ∃ v, (validate_plan lines (rulesOnlyBudget b)).violations = [v] ∧
        v.type = "budget_exceeded" ∧ v.severity = "critical" ∧
        (validate_plan lines (rulesOnlyBudget b)).is_valid = false ∧
        okSignal (validate_plan lines (rulesOnlyBudget b)).violations = false) := by
  constructor
  · rw [validate_plan_rulesOnlyBudget]
    exact validate_budget_iff lines b (rulesOnlyBudget b) rfl
  · intro h50
    have hlt : b < sumVCost lines := by rw [h50]; linarith
    obtain ⟨v, hv, ht, hs⟩ := validate_budget_pos lines b (rulesOnlyBudget b) rfl hlt
    have hviol : (validate_plan lines (rulesOnlyBudget b)).violations = [v] := by
      rw [validate_plan_rulesOnlyBudget, hv]
    refine ⟨v, hviol, ht, hs, ?_, ?_⟩
    · have hnot : ¬ ((validate_plan lines (rulesOnlyBudget b)).is_valid = true) := by
        rw [is_valid_iff]
        intro hall
        exact (hall v (by rw [hviol]; exact List.mem_singleton_self _)) hs
      exact Bool.eq_false_iff.2 hnot
    · rw [hviol]
      rfl

/-- Witness for C4 at a concrete over-budget line list. -/
theorem validator_budget_rule_witness :
    sumVCost [⟨"S1", "A", 1, 150⟩] = (100 : ℚ) + 50 ∧
    ∃ v, (validate_plan [⟨"S1", "A", 1, 150⟩] (rulesOnlyBudget 100)).violations = [v] ∧
      v.type = "budget_exceeded" ∧ v.severity = "critical" ∧
      (validate_plan [⟨"S1", "A", 1, 150⟩] (rulesOnlyBudget 100)).is_valid = false ∧
      okSignal (validate_plan [⟨"S1", "A", 1, 150⟩] (rulesOnlyBudget 100)).violations = false := by
  have h : sumVCost [⟨"S1", "A", 1, 150⟩] = (100 : ℚ) + 50 := by norm_num [sumVCost]
  exact ⟨h, (validator_budget_rule _ 100).2 h⟩

/-- Counterexample to C4 as stated: a total exceeding the budget by 1e-7, which
is within the claimed tolerance 1e-6, still triggers the violation — the code
compares with no tolerance at all. -/
theorem validator_tolerance_cex :
    (validate_plan [⟨"S1", "A", 1, 100 + 1 / 10000000⟩] (rulesOnlyBudget 100)).violations ≠ [] ∧
    ¬ ((100 : ℚ) + 1 / 1000000 <
        sumVCost [⟨"S1", "A", 1, 100 + 1 / 10000000⟩]) := by
  constructor
  · rw [validate_plan_rulesOnlyBudget]
    exact (validate_budget_iff _ 100 _ rfl).2 (by norm_num [sumVCost])
  · norm_num [sumVCost]

/-- Claim C5: the result exposes the two validity signals — the (spec-modelled)
ok flag holds exactly when the violation list is empty, and `is_valid` holds
exactly when no violation has critical severity. -/
theorem validator_two_signals (lines : List VLine) (rules : Rules) :
    (okSignal (validate_plan lines rules).violations = true ↔
      (validate_plan lines rules).violations = []) ∧
    ((validate_plan lines rules).is_valid = true ↔
      ∀ v ∈ (validate_plan lines rules).violations, v.severity ≠ "critical") :=
  ⟨by simp [okSignal], is_valid_iff lines rules⟩

/-- Claim C6 (code evaluation): an empty cluster map makes `generate_plan` fail
with `ZeroDivisionError` in `_calculate_coverage_stats` (embedded as `none`)
instead of returning an empty plan, while an empty SKU catalog does return an
empty line list with the budget untouched. -/
theorem seed_empty_inputs_eval :
    generate_plan [⟨"A", 10⟩] [] (fun _ => none) 100 5 = none ∧
    generate_plan [] [("S1", 0)] (fun _ => none) 100 5 = some
      { lines := []
        total_cost := 0
        coverage_stats :=
          { store_coverage := 0
            total_skus_planned := 0
            total_lines := 0
            budget_utilization := 0
            avg_skus_per_store := 0 }
        confidence_scores := [] } := by
  constructor
  · norm_num [generate_plan, calculate_coverage_stats, generate_plan_lines, generatePlanState,
      sortDesc, skuPriorities, insertDesc, allocateSku, allocStore, eligibleStores,
      defaultPriority]
  · norm_num [generate_plan, calculate_coverage_stats, calculate_confidence_scores,
      generate_plan_lines, generatePlanState, sortDesc, skuPriorities]

/-- Claim C7 (code evaluation): with budget 0 and a non-empty catalog of
positive-cost SKUs the greedy loop emits no lines and leaves the budget at 0,
but `generate_plan` then fails with `ZeroDivisionError` computing
`budget_utilization` (embedded as `none`) instead of returning that result. -/
theorem seed_zero_budget_eval :
    generate_plan_lines [⟨"A", 10⟩, ⟨"B", 20⟩] [("S1", 0)] (fun _ => none) 0 5 = [] ∧
    (generatePlanState [⟨"A", 10⟩, ⟨"B", 20⟩] [("S1", 0)] (fun _ => none) 0 5).budget = 0 ∧
    generate_plan [⟨"A", 10⟩, ⟨"B", 20⟩] [("S1", 0)] (fun _ => none) 0 5 = none := by
  refine ⟨?_, ?_, ?_⟩ <;>
    norm_num [generate_plan, calculate_coverage_stats, generate_plan_lines, generatePlanState,
      sortDesc, skuPriorities, insertDesc, allocateSku, allocStore, eligibleStores,
      defaultPriority, bumpCount, List.lookup, mkLine, lineQuantity, pyTrunc]

/-- Claim C8 (amended): every emitted line records its SKU's (defaulted)
priority, its quantity is `max(1, int(priority / 2))` — so 2, not 1, when no
forecast entry exists, since the missing-forecast default demand is 5.0 — its
cost is unit cost times quantity, and every prefix of the emitted lines fits
the initial budget (each line was emitted only if its full cost fit the
remaining budget). -/
theorem seed_line_quantity_shape (catalog : List Sku) (cm : List (String × Int))
    (f : String → Option Forecast) (budget : ℚ) (maxSkus : Int) (l : PlanLine) (n : ℕ)
    (hb : 0 ≤ budget) (hl : l ∈ generate_plan_lines catalog cm f budget maxSkus) :
    l.forecast_demand = defaultPriority f l.sku ∧
    l.quantity = lineQuantity (defaultPriority f l.sku) ∧
    l.cost = l.unit_cost * (l.quantity : ℚ) ∧
    (f l.sku = none → l.quantity = 2) ∧
    (((generate_plan_lines catalog cm f budget maxSkus).take n).map PlanLine.cost).sum ≤
      budget := by
  obtain ⟨⟨-, -, hpre⟩, hshape⟩ := generatePlanState_master catalog cm f budget maxSkus hb
  obtain ⟨h1, h2, h3⟩ := hshape l hl
  refine ⟨h1, h1 ▸ h2, h3, ?_, hpre n⟩
  intro hnone
  rw [h2, h1]
  unfold defaultPriority
  rw [hnone]
  show lineQuantity 5 = 2
  norm_num [lineQuantity, pyTrunc]

/-- The single line emitted in the concrete no-forecast scenario. -/
def c8line : PlanLine :=
  { sku := "A", store := "S1", cluster := 0, quantity := 2, unit_cost := 10,
    cost := 20, forecast_demand := 5 }

/-- Witness for C8 at a concrete no-forecast input. -/
theorem seed_line_quantity_shape_witness :
    0 ≤ (100 : ℚ) ∧
      c8line ∈ generate_plan_lines [⟨"A", 10⟩] [("S1", 0)] (fun _ => none) 100 5 ∧
      ((fun _ => (none : Option Forecast)) c8line.sku = none → c8line.quantity = 2) := by
  have hb : 0 ≤ (100 : ℚ) := by norm_num
  have hm : c8line ∈ generate_plan_lines [⟨"A", 10⟩] [("S1", 0)] (fun _ => none) 100 5 := by
    norm_num [c8line, generate_plan_lines, generatePlanState, sortDesc, skuPriorities,
      insertDesc, allocateSku, allocStore, mkLine, lineQuantity, pyTrunc, defaultPriority,
      bumpCount, eligibleStores, List.lookup]
  exact ⟨hb, hm, (seed_line_quantity_shape _ _ _ _ _ c8line 0 hb hm).2.2.2.1⟩

/-- Counterexample to C8 as stated: in a run with no forecast entries at all
the emitted line has quantity 2, not 1. -/
theorem seed_default_quantity_cex :
    ¬ (∀ l ∈ generate_plan_lines [⟨"A", 10⟩] [("S1", 0)] (fun _ => none) 100 5,
        l.quantity = 1) := by
  have heval : generate_plan_lines [⟨"A", 10⟩] [("S1", 0)] (fun _ => none) 100 5 =
      [{ sku := "A", store := "S1", cluster := 0, quantity := 2, unit_cost := 10,
         cost := 20, forecast_demand := 5 }] := by
    norm_num [generate_plan_lines, generatePlanState, sortDesc, skuPriorities, insertDesc,
      allocateSku, allocStore, mkLine, lineQuantity, pyTrunc, defaultPriority, bumpCount,
      eligibleStores, List.lookup]
  intro h
  have h2 := h _ (by rw [heval]; exact List.mem_singleton_self _)
  simp at h2

/-- Claim C9 (code evaluation): `cluster_stores` is a constant function of its
inputs — on a degenerate store set it does not fail but returns the fixed mock
assignment (a non-empty cluster map). -/
theorem cluster_stores_constant (stores_csv : String) (features : List String)
    (algorithm : String) (n_clusters : Option Int) :
    cluster_stores stores_csv features algorithm n_clusters =
      cluster_stores "single_store.csv" ["capacity", "footfall"] "kmeans" none ∧
    (cluster_stores stores_csv features algorithm n_clusters).cluster_map ≠ [] :=
  ⟨rfl, by simp [cluster_stores]⟩

/-- Claim C10: when the catalog's SKU ids are distinct (the data-model key
invariant), each SKU id appears in at most 3 emitted allocation lines. -/
theorem seed_sku_at_most_three_lines (catalog : List Sku) (cm : List (String × Int))
    (f : String → Option Forecast) (budget : ℚ) (maxSkus : Int) (s : String)
    (hnd : (catalog.map Sku.sku_id).Nodup) :
    countSkuLines (generate_plan_lines catalog cm f budget maxSkus) s ≤ 3 := by
  unfold generate_plan_lines generatePlanState
  refine fold_countSkuLines cm maxSkus s _ _ ?_ ?_ ?_
  · exact (sortDesc_skuIds_perm f catalog).nodup_iff.2 hnd
  · simp [countSkuLines]
  · intro _
    simp [countSkuLines]

/-- Witness for C10 at a concrete catalog and SKU id. -/
theorem seed_sku_at_most_three_lines_witness :
    (([⟨"A", 10⟩, ⟨"B", 30⟩] : List Sku).map Sku.sku_id).Nodup ∧
      countSkuLines (generate_plan_lines [⟨"A", 10⟩, ⟨"B", 30⟩] [("S1", 0)]
        (fun _ => none) 100 5) "A" ≤ 3 :=
  ⟨by simp [Sku.sku_id], seed_sku_at_most_three_lines _ _ _ _ _ "A" (by simp [Sku.sku_id])⟩

end AuraSeed
